import Mathlib

/-!
Shallow embedding of the quiz application's core logic:

* src/src/pages/Index.tsx — the session engine (a React function component
  using useState).  Each event handler is modelled as a function on a
  `World`.  React semantics are modelled faithfully:
  - reads of state variables inside a handler see the committed state of
    the render that created the handler (the snapshot), not values written
    earlier in the same event;
  - `setX(v)` overwrites the pending state, `setX(prev => f prev)` applies
    `f` to the pending state;
  - a `setTimeout` callback closes over the snapshot of the render that
    armed it, so when it later fires it reads those captured values, while
    its setters act on the then-current committed state.
* src/src/components/Dashboard.tsx — the metrics / filtering code and the
  start-quiz validation (`part_000` of the repository is a later variant of
  the same component with identical metrics and filter logic).

`Date.now().toString()` and `new Date().toLocaleDateString()` are
environment-supplied values irrelevant to the verified properties; they are
modelled as the empty string.
-/

/-- A question of the catalog (src/types/quiz.ts is not part of the sources;
the fields are the ones the logic under test reads: `id`, `qbankId`,
`correctAnswer`, `isMarked`, `options`). `correctAnswer` is an `Int` because
the session engine compares it against the sentinel `-1`. -/
structure Question where
  id : Nat
  qbankId : String
  options : List String
  correctAnswer : Int
  isMarked : Bool
deriving DecidableEq

/-- A question bank of the catalog. -/
structure QBank where
  id : String
  name : String
  description : String
  questions : List Question
deriving DecidableEq

/-- One recorded answer (or omission) for one question; `selectedAnswer`
is `none` for the omitted sentinel (`null` in the source). -/
structure QuestionAttempt where
  questionId : Nat
  selectedAnswer : Option Int
  isCorrect : Bool
deriving DecidableEq

/-- A history record.  Dashboard.tsx reads `quiz.questionAttempts`
(requiring the field), while Index.tsx constructs its records without that
property; the field is therefore modelled as optional, and the records the
session engine emits carry `none`. -/
structure QuizHistory where
  id : String
  date : String
  score : Nat
  totalQuestions : Nat
  qbankId : String
  questionAttempts : Option (List QuestionAttempt)
deriving DecidableEq

/-- The Dashboard's category filter toggles, in the source's field order. -/
structure QuestionFilter where
  unused : Bool
  used : Bool
  incorrect : Bool
  correct : Bool
  marked : Bool
  omitted : Bool
deriving DecidableEq

/-- The `useState` variables of the Index component, i.e. the session
engine's state. `questionTimer` holds the handle of the armed timeout. -/
structure QuizState where
  currentQuestionIndex : Nat
  score : Nat
  showScore : Bool
  selectedAnswer : Option Int
  isAnswered : Bool
  inQuiz : Bool
  currentQuestions : List Question
  tutorMode : Bool
  showExplanation : Bool
  isPaused : Bool
  timerEnabled : Bool
  timePerQuestion : Nat
  questionTimer : Option Nat
deriving DecidableEq

/-- The component state together with the environment the handlers touch:
`pending` are the armed `setTimeout` callbacks (handle plus the state
snapshot their closure captured), `nextId` a fresh handle supply, and
`emitted` the records passed to `onQuizComplete` in order. -/
structure World where
  state : QuizState
  pending : List (Nat × QuizState)
  nextId : Nat
  emitted : List QuizHistory
deriving DecidableEq

/-- Default question used to model a JavaScript out-of-bounds index read;
the verified runs only access indices in bounds. -/
def defaultQuestion : Question :=
  { id := 0, qbankId := "", options := [], correctAnswer := 0, isMarked := false }

/-- The `useState` initial values of Index.tsx. -/
def initialState : QuizState :=
  { currentQuestionIndex := 0, score := 0, showScore := false,
    selectedAnswer := none, isAnswered := false, inQuiz := false,
    currentQuestions := [], tutorMode := false, showExplanation := false,
    isPaused := false, timerEnabled := false, timePerQuestion := 60,
    questionTimer := none }

/-- A freshly mounted component: no timers armed, nothing emitted. -/
def initialWorld : World :=
  { state := initialState, pending := [], nextId := 0, emitted := [] }

/-- JavaScript `array.slice(0, e)`: a negative end counts from the end of
the array, a too-large end is clamped. -/
def jsSliceTo (l : List α) (e : Int) : List α :=
  if e < 0 then l.take ((l.length + e).toNat) else l.take e.toNat

/-- JavaScript `v || d` on a nullable number: `null` and `0` are falsy. -/
def jsOrDefault (v : Option Int) (d : Int) : Int :=
  match v with
  | none => d
  | some x => if x = 0 then d else x

/-- `if (questionTimer) clearTimeout(questionTimer)`: removes the armed
callback with that handle, a no-op on an already-fired or absent handle. -/
def clearTimeoutPending (pending : List (Nat × QuizState)) (timer : Option Nat) :
    List (Nat × QuizState) :=
  match timer with
  | some tid => pending.filter (fun p => p.1 != tid)
  | none => pending

/-- The `QuizHistory` object literal Index.tsx builds at emission sites:
`id` and `date` are environment values (modelled as `""`), and no
`questionAttempts` property is written. -/
def mkHistory (score : Nat) (total : Nat) (qbankId : String) : QuizHistory :=
  { id := "", date := "", score := score, totalQuestions := total,
    qbankId := qbankId, questionAttempts := none }

/-- `startQuestionTimer` (Index.tsx:59-71): clears the handle read from the
snapshot, arms a fresh timeout whose callback captures the snapshot, and
stores the new handle. -/
def startQuestionTimer (snap : QuizState) (w : World) : World :=
  let pending := clearTimeoutPending w.pending snap.questionTimer
  let tid := w.nextId
  { w with state := { w.state with questionTimer := some tid },
           pending := pending ++ [(tid, snap)],
           nextId := w.nextId + 1 }

/-- `proceedToNextQuestion` (Index.tsx:99-118).  On the last question it
emits a record whose score adds the just-submitted option's correctness to
the snapshot's (stale) `score`; otherwise it advances the index and, with
the timer enabled, re-arms the timer (capturing the snapshot). -/
def proceedToNextQuestion (snap : QuizState) (optionIndex : Int) (w : World) : World :=
  if (snap.currentQuestionIndex : Int) = (snap.currentQuestions.length : Int) - 1 then
    let q := snap.currentQuestions.getD snap.currentQuestionIndex defaultQuestion
    let hist := mkHistory
      (snap.score + (if optionIndex = q.correctAnswer then 1 else 0))
      snap.currentQuestions.length
      ((snap.currentQuestions.getD 0 defaultQuestion).qbankId)
    { w with emitted := w.emitted ++ [hist],
             state := { w.state with showScore := true } }
  else
    let w1 := { w with state := { w.state with
                  currentQuestionIndex := w.state.currentQuestionIndex + 1,
                  selectedAnswer := none, isAnswered := false } }
    if snap.timerEnabled then startQuestionTimer snap w1 else w1

/-- `handleAnswerTimeout` (Index.tsx:73-80), as run by the timeout callback
with its captured snapshot. -/
def handleAnswerTimeout (snap : QuizState) (w : World) : World :=
  let w1 := { w with state := { w.state with isAnswered := true } }
  if snap.tutorMode then
    { w1 with state := { w1.state with showExplanation := true } }
  else
    proceedToNextQuestion snap (-1) w1

/-- `handleAnswerClick` (Index.tsx:82-97): guarded by the snapshot's
`isAnswered`/`isPaused`; records the selection, bumps the score on a correct
option, then shows the explanation (tutor mode) or advances.  Note that it
contains no `clearTimeout`. -/
def handleAnswerClick (optionIndex : Int) (w : World) : World :=
  let snap := w.state
  if snap.isAnswered || snap.isPaused then w
  else
    let w1 := { w with state := { w.state with
                  selectedAnswer := some optionIndex, isAnswered := true } }
    let w2 :=
      if optionIndex = (snap.currentQuestions.getD snap.currentQuestionIndex defaultQuestion).correctAnswer
      then { w1 with state := { w1.state with score := w1.state.score + 1 } }
      else w1
    if snap.tutorMode then
      { w2 with state := { w2.state with showExplanation := true } }
    else
      proceedToNextQuestion snap optionIndex w2

/-- Firing the armed timeout with handle `tid` (the `setTimeout` callback of
Index.tsx:64-68): a cleared handle does nothing; otherwise the callback runs
with its captured snapshot — `if (!isAnswered && !isPaused) handleAnswerTimeout()`
reads the captured, possibly stale, flags. -/
def fireTimer (tid : Nat) (w : World) : World :=
  match w.pending.find? (fun p => p.1 == tid) with
  | none => w
  | some p =>
    let captured := p.2
    let w1 := { w with pending := w.pending.filter (fun q => q.1 != tid) }
    if !captured.isAnswered && !captured.isPaused then
      handleAnswerTimeout captured w1
    else
      w1

/-- `handleRestart` (Index.tsx:144-156), with the snapshot of the event that
reached it (it reads `questionTimer` from that closure). -/
def handleRestart (snap : QuizState) (w : World) : World :=
  { w with pending := clearTimeoutPending w.pending snap.questionTimer,
           state := { w.state with
              inQuiz := false, currentQuestionIndex := 0, score := 0,
              showScore := false, selectedAnswer := none, isAnswered := false,
              tutorMode := false, isPaused := false } }

/-- `handleQuit` (Index.tsx:120-130): emits a record from the committed
score and question list, then restarts. -/
def handleQuit (w : World) : World :=
  let snap := w.state
  let hist := mkHistory snap.score snap.currentQuestions.length
    ((snap.currentQuestions.getD 0 defaultQuestion).qbankId)
  handleRestart snap { w with emitted := w.emitted ++ [hist] }

/-- `handlePause` (Index.tsx:132-137): toggles `isPaused` (functional
updater) and clears the armed timeout read from the snapshot. -/
def handlePause (w : World) : World :=
  let snap := w.state
  let w1 := { w with state := { w.state with isPaused := !w.state.isPaused } }
  { w1 with pending := clearTimeoutPending w1.pending snap.questionTimer }

/-- `handleContinue` (Index.tsx:139-142): hides the explanation and advances
with `selectedAnswer || 0`. -/
def handleContinue (w : World) : World :=
  let snap := w.state
  let w1 := { w with state := { w.state with showExplanation := false } }
  proceedToNextQuestion snap (jsOrDefault snap.selectedAnswer 0) w1

/-- The two navigation directions of `handleQuizNavigation`. -/
inductive NavDirection where
  | prev
  | next
deriving DecidableEq

/-- `handleQuizNavigation` (Index.tsx:175-186).  Backward: only when the
index is positive; rewinds, resets the per-question fields and, with the
timer enabled, re-arms the timer.  Forward: only before the last question;
advances with `selectedAnswer || -1`. -/
def handleQuizNavigation (direction : NavDirection) (w : World) : World :=
  let snap := w.state
  if direction = NavDirection.prev ∧ snap.currentQuestionIndex > 0 then
    let w1 := { w with state := { w.state with
                  currentQuestionIndex := w.state.currentQuestionIndex - 1,
                  selectedAnswer := none, isAnswered := false } }
    if snap.timerEnabled then startQuestionTimer snap w1 else w1
  else if direction = NavDirection.next ∧
      (snap.currentQuestionIndex : Int) < (snap.currentQuestions.length : Int) - 1 then
    proceedToNextQuestion snap (jsOrDefault snap.selectedAnswer (-1)) w
  else
    w

/-- `handleStartQuiz` (Index.tsx:34-57).  The bank is looked up in the full
catalog `qbanks`; its question list is shuffled — modelled by the `shuffle`
argument standing for `sort(() => Math.random() - 0.5)`, whose result is
some permutation of its input — and cut to `questionCount`; the session
fields are initialized and, with the timer requested, the timer armed
(its callback capturing the pre-start snapshot). -/
def handleStartQuiz (qbanks : List QBank) (shuffle : List Question → List Question)
    (qbankId : String) (questionCount : Int) (isTutorMode withTimer : Bool)
    (timeLimit : Nat) (w : World) : World :=
  let snap := w.state
  match qbanks.find? (fun qb => qb.id == qbankId) with
  | none => w
  | some selectedQBank =>
    let shuffledQuestions := jsSliceTo (shuffle selectedQBank.questions) questionCount
    let w1 := { w with state := { w.state with
        currentQuestions := shuffledQuestions, currentQuestionIndex := 0,
        score := 0, showScore := false, selectedAnswer := none,
        isAnswered := false, tutorMode := isTutorMode,
        timerEnabled := withTimer, timePerQuestion := timeLimit,
        inQuiz := true, isPaused := false } }
    if withTimer then startQuestionTimer snap w1 else w1

/-- The `disabled` condition of the Previous button in QuizController
(second document of Index.tsx, lines 361-370):
`currentQuestionIndex === 0 || timerEnabled`. -/
def quizControllerPrevDisabled (currentQuestionIndex : Nat) (timerEnabled : Bool) : Bool :=
  (currentQuestionIndex == 0) || timerEnabled

/-- `Object.values(filters).some(Boolean)` (Dashboard.tsx:159). -/
def anyFilterActive (f : QuestionFilter) : Bool :=
  f.unused || f.used || f.incorrect || f.correct || f.marked || f.omitted

/-- The attempts across all history belonging to one question
(Dashboard.tsx:164-166); an absent `questionAttempts` contributes nothing
(in the source that access would be a runtime error; the verified inputs
carry the field). -/
def attemptsFor (history : List QuizHistory) (questionId : Nat) : List QuestionAttempt :=
  history.flatMap (fun quiz =>
    (quiz.questionAttempts.getD []).filter (fun a => a.questionId == questionId))

/-- The per-question retention predicate of `filteredQBanks`
(Dashboard.tsx:163-180): the OR, over the active filters, of the
per-category membership tests. -/
def retainQuestion (history : List QuizHistory) (filters : QuestionFilter)
    (question : Question) : Bool :=
  let attempts := attemptsFor history question.id
  let isUsed := decide (attempts.length > 0)
  let isCorrect := attempts.any (fun a => a.isCorrect)
  let isIncorrect := attempts.any (fun a => !a.isCorrect)
  let isOmitted := attempts.any (fun a => a.selectedAnswer.isNone)
  (filters.unused && !isUsed) || (filters.used && isUsed) ||
    (filters.correct && isCorrect) || (filters.incorrect && isIncorrect) ||
    (filters.marked && question.isMarked) || (filters.omitted && isOmitted)

/-- `filteredQBanks` (Dashboard.tsx:158-183): the catalog itself when no
filter is active; otherwise each bank restricted to its retained questions,
with emptied banks dropped. -/
def filteredQBanks (qbanks : List QBank) (history : List QuizHistory)
    (filters : QuestionFilter) : List QBank :=
  if !(anyFilterActive filters) then qbanks
  else
    ((qbanks.map (fun qbank =>
        { qbank with questions := qbank.questions.filter (retainQuestion history filters) })).filter
      (fun qbank => decide (0 < qbank.questions.length)))

/-- The category counts the Dashboard derives. -/
structure Metrics where
  unused : Nat
  used : Nat
  correct : Nat
  incorrect : Nat
  marked : Nat
  omitted : Nat
deriving DecidableEq

/-- `metrics` (Dashboard.tsx:46-97): id sets accumulated over every attempt
of every record — an omitted attempt counts as incorrect and omitted, an
answered one as correct or incorrect by its `isCorrect` — the unused count
summed per bank over the never-seen questions, and the marked id set filled
from the catalog only under the source's `quizHistory.length > 0` guard. -/
def metrics (qbanks : List QBank) (quizHistory : List QuizHistory) : Metrics :=
  let attempts := quizHistory.flatMap (fun quiz => quiz.questionAttempts.getD [])
  let seenQuestionIds := (attempts.map (fun a => a.questionId)).toFinset
  let correctQuestionIds :=
    ((attempts.filter (fun a => !a.selectedAnswer.isNone && a.isCorrect)).map
      (fun a => a.questionId)).toFinset
  let incorrectQuestionIds :=
    ((attempts.filter (fun a => a.selectedAnswer.isNone || !a.isCorrect)).map
      (fun a => a.questionId)).toFinset
  let omittedQuestionIds :=
    ((attempts.filter (fun a => a.selectedAnswer.isNone)).map
      (fun a => a.questionId)).toFinset
  let unusedCount := qbanks.foldl (fun acc qbank =>
    acc + (qbank.questions.filter (fun q => !(decide (q.id ∈ seenQuestionIds)))).length) 0
  let markedQuestionIds : Finset Nat :=
    if 0 < quizHistory.length then
      (((qbanks.flatMap (fun qb => qb.questions)).filter (fun q => q.isMarked)).map
        (fun q => q.id)).toFinset
    else ∅
  { unused := unusedCount, used := seenQuestionIds.card,
    correct := correctQuestionIds.card, incorrect := incorrectQuestionIds.card,
    marked := markedQuestionIds.card, omitted := omittedQuestionIds.card }

/-- `handleStartQuiz` of Dashboard.tsx:185-197 composed with the engine's
start: guarded by a selected bank and a positive count; the over-quota test
compares against the bank found in the *filtered* catalog — when that lookup
finds nothing, the JavaScript comparison `questionCount > undefined` is
false and the call falls through to `onStartQuiz`.  Returns whether the
rejection toast was shown, and the resulting world. -/
def dashboardHandleStartQuiz (qbanks : List QBank) (history : List QuizHistory)
    (filters : QuestionFilter) (shuffle : List Question → List Question)
    (selectedQBank : String) (questionCount : Int)
    (tutorMode timerEnabled : Bool) (timeLimit : Nat) (w : World) : Bool × World :=
  if selectedQBank ≠ "" ∧ 0 < questionCount then
    match (filteredQBanks qbanks history filters).find? (fun qb => qb.id == selectedQBank) with
    | some qb =>
      if (qb.questions.length : Int) < questionCount then
        (true, w)
      else
        (false, handleStartQuiz qbanks shuffle selectedQBank questionCount
                  tutorMode timerEnabled timeLimit w)
    | none =>
      (false, handleStartQuiz qbanks shuffle selectedQBank questionCount
                tutorMode timerEnabled timeLimit w)
  else
    (false, w)

/-- Questions of the five-question bank used for the quit scenario. -/
def c1Questions : List Question :=
  [{ id := 11, qbankId := "b1", options := [], correctAnswer := 0, isMarked := false },
   { id := 12, qbankId := "b1", options := [], correctAnswer := 0, isMarked := false },
   { id := 13, qbankId := "b1", options := [], correctAnswer := 0, isMarked := false },
   { id := 14, qbankId := "b1", options := [], correctAnswer := 0, isMarked := false },
   { id := 15, qbankId := "b1", options := [], correctAnswer := 0, isMarked := false }]

/-- The five-question bank for the quit scenario. -/
def c1Bank : QBank := { id := "b1", name := "", description := "", questions := c1Questions }

/-- Start a five-question session (no tutor mode, no timer), answer the
first two questions correctly, then quit. -/
def c1Run : World :=
  handleQuit (handleAnswerClick 0 (handleAnswerClick 0
    (handleStartQuiz [c1Bank] id "b1" 5 false false 60 initialWorld)))

/-- A two-question bank, both with correct answer 0. -/
def c2Bank : QBank :=
  { id := "b2", name := "", description := "",
    questions :=
      [{ id := 21, qbankId := "b2", options := [], correctAnswer := 0, isMarked := false },
       { id := 22, qbankId := "b2", options := [], correctAnswer := 0, isMarked := false }] }

/-- Start a two-question session and answer the first question correctly. -/
def c2Run : World :=
  handleAnswerClick 0 (handleStartQuiz [c2Bank] id "b2" 2 false false 60 initialWorld)

/-- The bank of the specified scenario: three questions whose correct
answers are at indices 1, 0 and 2. -/
def c3Bank : QBank :=
  { id := "b3", name := "", description := "",
    questions :=
      [{ id := 31, qbankId := "b3", options := [], correctAnswer := 1, isMarked := false },
       { id := 32, qbankId := "b3", options := [], correctAnswer := 0, isMarked := false },
       { id := 33, qbankId := "b3", options := [], correctAnswer := 2, isMarked := false }] }

/-- The scenario after `start(b3, 3, tutorMode=false, timer=false, 60)`. -/
def c3Started : World := handleStartQuiz [c3Bank] id "b3" 3 false false 60 initialWorld

/-- ... after `answer(1)` (correct). -/
def c3AfterFirst : World := handleAnswerClick 1 c3Started

/-- ... after `answer(1)` (wrong). -/
def c3AfterSecond : World := handleAnswerClick 1 c3AfterFirst

/-- ... after `answer(2)` (correct, last question). -/
def c3AfterThird : World := handleAnswerClick 2 c3AfterSecond

/-- A single-question bank for the timer race. -/
def c4Bank : QBank :=
  { id := "b4", name := "", description := "",
    questions :=
      [{ id := 41, qbankId := "b4", options := [], correctAnswer := 0, isMarked := false }] }

/-- Start a one-question timed session (non-tutor): the per-question timer
with handle 0 is armed. -/
def c4Started : World := handleStartQuiz [c4Bank] id "b4" 1 false true 60 initialWorld

/-- ... then answer the (only, hence last) question correctly before the
timer fires. -/
def c4Answered : World := handleAnswerClick 0 c4Started

/-- The filter state with only the `correct` category active. -/
def onlyCorrectFilter : QuestionFilter :=
  { unused := false, used := false, incorrect := false, correct := true,
    marked := false, omitted := false }

/-- The filter state with no category active. -/
def noFilter : QuestionFilter :=
  { unused := false, used := false, incorrect := false, correct := false,
    marked := false, omitted := false }

/-- A question answered correctly once in history. -/
def c5q1 : Question := { id := 51, qbankId := "b5", options := [], correctAnswer := 0, isMarked := false }

/-- A question never attempted. -/
def c5q2 : Question := { id := 52, qbankId := "b5", options := [], correctAnswer := 0, isMarked := false }

/-- The bank holding both. -/
def c5Bank : QBank := { id := "b5", name := "", description := "", questions := [c5q1, c5q2] }

/-- History with one record: question 51 answered correctly. -/
def c5History : List QuizHistory :=
  [{ id := "", date := "", score := 1, totalQuestions := 1, qbankId := "b5",
     questionAttempts := some [{ questionId := 51, selectedAnswer := some 0, isCorrect := true }] }]

/-- A valid one-question start through the Dashboard with the `correct`
filter active (the filtered bank holds exactly question 51), with a shuffle
outcome that puts question 52 first. -/
def c5Run : Bool × World :=
  dashboardHandleStartQuiz [c5Bank] c5History onlyCorrectFilter List.reverse
    "b5" 1 false false 60 initialWorld

/-- A two-question bank with distinct questions, for instantiating the
sampling theorem. -/
def c5wBank : QBank :=
  { id := "w5", name := "", description := "",
    questions :=
      [{ id := 55, qbankId := "w5", options := [], correctAnswer := 0, isMarked := false },
       { id := 56, qbankId := "w5", options := [], correctAnswer := 1, isMarked := false }] }

/-- The world after a valid start of two questions from `c5wBank`. -/
def c5wRun : World := handleStartQuiz [c5wBank] id "w5" 2 false false 60 initialWorld

/-- A one-question bank for the over-quota rejection. -/
def c6Bank : QBank :=
  { id := "b6", name := "", description := "",
    questions :=
      [{ id := 61, qbankId := "b6", options := [], correctAnswer := 0, isMarked := false }] }

/-- Dashboard start of `c6Bank` with an empty history and the `correct`
filter active: the bank's filtered question set is empty, so the whole bank
is dropped from the filtered catalog, and the requested count 5 exceeds
even the full bank. -/
def c6Run : Bool × World :=
  dashboardHandleStartQuiz [c6Bank] [] onlyCorrectFilter id "b6" 5 false false 60 initialWorld

/-- A session on question index 1 of a two-question bank with the timer
enabled and no timer armed yet. -/
def c7World : World :=
  { state := { initialState with
      inQuiz := true, timerEnabled := true, currentQuestionIndex := 1,
      currentQuestions :=
        [{ id := 71, qbankId := "b7", options := [], correctAnswer := 0, isMarked := false },
         { id := 72, qbankId := "b7", options := [], correctAnswer := 0, isMarked := false }] },
    pending := [], nextId := 0, emitted := [] }

/-- A catalog with a single marked question. -/
def c8Banks : List QBank :=
  [{ id := "b8", name := "", description := "",
     questions :=
       [{ id := 81, qbankId := "b8", options := [], correctAnswer := 0, isMarked := true }] }]

/-- A non-empty history whose single record holds no attempts. -/
def c8History : List QuizHistory :=
  [{ id := "", date := "", score := 0, totalQuestions := 1, qbankId := "b8",
     questionAttempts := some [] }]

/-- The last question of the tutor-mode timeout scenario; its correct
answer is index 0. -/
def c10Question : Question :=
  { id := 101, qbankId := "b10", options := [], correctAnswer := 0, isMarked := false }

/-- A tutor-mode session on its (single, hence last) question after a
timeout: answered with no selection, explanation showing. -/
def c10World : World :=
  { state := { initialState with
      inQuiz := true, tutorMode := true, isAnswered := true, showExplanation := true,
      selectedAnswer := none, currentQuestions := [c10Question], currentQuestionIndex := 0 },
    pending := [], nextId := 0, emitted := [] }

/-- C1: quitting after answering 2 of 5 questions emits exactly one
HistoryRecord with `totalQuestions = 5` and `score = 2`, but the record
carries no `questionAttempts` at all — the session engine never creates
`QuestionAttempt`s, so the emitted record does not contain the ordered list
of the two attempts the claim requires (Dashboard.tsx nevertheless reads
`record.questionAttempts`). -/
theorem quit_emitsRecordWithoutAttempts :
    c1Run.emitted.length = 1
    ∧ (c1Run.emitted.getD 0 (mkHistory 0 0 "")).totalQuestions = 5
    ∧ (c1Run.emitted.getD 0 (mkHistory 0 0 "")).score = 2
    ∧ (c1Run.emitted.getD 0 (mkHistory 0 0 "")).questionAttempts = none := by
  decide

/-- C2: after answering the first question of a two-question session
correctly, the cached score is 1 while no `QuestionAttempt` has been
recorded anywhere (the engine keeps no attempt store and has emitted no
record), so the score does not equal the number of recorded attempts with
`isCorrect = true`, which is 0. -/
theorem score_counterWithoutRecordedAttempts :
    c2Run.state.score = 1
    ∧ c2Run.state.currentQuestionIndex = 1
    ∧ c2Run.emitted = [] := by
  decide

/-- C3: on the bank with correct answers at indices 1, 0, 2, the calls
`answer(1); answer(1); answer(2)` in a non-tutor, non-timer session give
score 1 after the first call, still 1 after the second, and the third call
finishes the session (score card shown) emitting a HistoryRecord with
`score = 2` and `totalQuestions = 3`. -/
theorem threeQuestionScenario :
    c3AfterFirst.state.score = 1
    ∧ c3AfterFirst.state.currentQuestionIndex = 1
    ∧ c3AfterSecond.state.score = 1
    ∧ c3AfterSecond.state.currentQuestionIndex = 2
    ∧ c3AfterThird.state.showScore = true
    ∧ c3AfterThird.state.score = 2
    ∧ c3AfterThird.emitted.map (fun h => (h.score, h.totalQuestions)) = [(2, 3)] := by
  decide

/-- C4: in a timed one-question session, answering the question leaves the
armed timeout pending (`handleAnswerClick` contains no `clearTimeout`), and
when that timeout later fires, its callback's captured snapshot still shows
`isAnswered = false`, so the firing is not a no-op: it advances
`currentQuestionIndex` past the finished quiz and clears `isAnswered`. -/
theorem answerLeavesTimerPending :
    c4Answered.state.isAnswered = true
    ∧ c4Answered.emitted.length = 1
    ∧ c4Answered.pending.length = 1
    ∧ c4Answered.state.currentQuestionIndex = 0
    ∧ (fireTimer 0 c4Answered).state.currentQuestionIndex = 1
    ∧ (fireTimer 0 c4Answered).state.isAnswered = false := by
  decide

/-- C5 counterexample: a valid start through the Dashboard (count 1, the
filtered bank under the `correct` filter holds exactly question 51) with
the shuffle outcome `List.reverse` produces a session whose only question
is 52, which is not in the filtered bank — the sample is drawn from the
full bank, not the filtered one. -/
theorem startQuiz_samplesOutsideFilteredBank :
    (filteredQBanks [c5Bank] c5History onlyCorrectFilter).flatMap QBank.questions = [c5q1]
    ∧ c5Run.1 = false
    ∧ c5Run.2.state.currentQuestions = [c5q2]
    ∧ c5q2 ∉ [c5q1] := by
  decide

/-- C6 counterexample: with the `correct` filter active and an empty
history, bank `b6` is dropped from the filtered catalog, so the Dashboard's
over-quota guard compares against `undefined` and passes; the call shows no
rejection and enters a session — even though the requested count 5 exceeds
the single available question. -/
theorem emptyFilteredBank_startsSession :
    filteredQBanks [c6Bank] [] onlyCorrectFilter = []
    ∧ c6Run.1 = false
    ∧ c6Run.2.state.inQuiz = true
    ∧ c6Run.2.state.currentQuestions.length = 1 := by
  decide

/-- C7 counterexample: with the timer enabled and the session on question
index 1, `handleQuizNavigation(prev)` is not a no-op — it rewinds to index
0 (backward navigation is not blocked by the engine when `timerEnabled`). -/
theorem prevNavigation_notBlockedByTimer :
    c7World.state.timerEnabled = true
    ∧ c7World.state.currentQuestionIndex = 1
    ∧ handleQuizNavigation NavDirection.prev c7World ≠ c7World
    ∧ (handleQuizNavigation NavDirection.prev c7World).state.currentQuestionIndex = 0 := by
  decide

/-- C8 counterexample: the marked count is not independent of the history —
on a catalog with one marked question it is 0 with an empty history and 1
with a non-empty one. -/
theorem metricsMarked_dependsOnHistory :
    ((c8Banks.flatMap QBank.questions).filter (fun q => q.isMarked)).length = 1
    ∧ (metrics c8Banks []).marked = 0
    ∧ (metrics c8Banks c8History).marked = 1 := by
  decide

/-- C5 (amended): every valid start — bank found in the catalog, count
between 1 and the bank's size — yields a session question list of exactly
`questionCount` questions, with no duplicates (for a duplicate-free bank),
each drawn from the selected bank of the full catalog, sampled once at
start as a prefix of a permutation of the bank's question list. -/
theorem handleStartQuiz_sampling (qbanks : List QBank)
    (shuffle : List Question → List Question) (qbankId : String) (n : Int)
    (tm te : Bool) (tl : Nat) (w : World) (qb : QBank)
    (hfind : qbanks.find? (fun b => b.id == qbankId) = some qb)
    (hperm : (shuffle qb.questions).Perm qb.questions)
    (h1 : 1 ≤ n) (h2 : n ≤ (qb.questions.length : Int))
    (hnodup : qb.questions.Nodup) :
    (handleStartQuiz qbanks shuffle qbankId n tm te tl w).state.currentQuestions.length = n.toNat
    ∧ (handleStartQuiz qbanks shuffle qbankId n tm te tl w).state.currentQuestions.Nodup
    ∧ ∀ q ∈ (handleStartQuiz qbanks shuffle qbankId n tm te tl w).state.currentQuestions,
        q ∈ qb.questions := by
  have hnn : ¬ n < 0 := by omega
  have hq : (handleStartQuiz qbanks shuffle qbankId n tm te tl w).state.currentQuestions
      = (shuffle qb.questions).take n.toNat := by
    cases te <;> simp [handleStartQuiz, hfind, startQuestionTimer, jsSliceTo, hnn]
  refine ⟨?_, ?_, ?_⟩
  · rw [hq, List.length_take, hperm.length_eq]
    exact Nat.min_eq_left (Int.toNat_le.mpr h2)
  · rw [hq]
    exact (List.take_sublist _ _).nodup (hperm.nodup_iff.mpr hnodup)
  · intro q hqmem
    rw [hq] at hqmem
    exact hperm.mem_iff.mp ((List.take_sublist _ _).subset hqmem)

/-- C5 witness: the sampling theorem instantiated on a concrete valid
two-question start with the identity shuffle. -/
theorem handleStartQuiz_sampling_witness :
    ((1 : Int) ≤ 2 ∧ (2 : Int) ≤ (c5wBank.questions.length : Int) ∧ c5wBank.questions.Nodup)
    ∧ c5wRun.state.currentQuestions.length = (2 : Int).toNat
    ∧ c5wRun.state.currentQuestions.Nodup
    ∧ ∀ q ∈ c5wRun.state.currentQuestions, q ∈ c5wBank.questions := by
  refine ⟨by decide, ?_⟩
  have h := handleStartQuiz_sampling [c5wBank] id "w5" 2 false false 60 initialWorld c5wBank
    (by decide) (List.Perm.refl _) (by decide) (by decide) (by decide)
  exact h

/-- C6 (amended): when the selected id does resolve in the filtered catalog
and the requested count exceeds that filtered bank's question count, the
Dashboard start shows the InvalidConfiguration toast and is a complete
no-op (the world is unchanged, no session is entered). -/
theorem dashboardStart_overQuota_rejected (qbanks : List QBank)
    (history : List QuizHistory) (filters : QuestionFilter)
    (shuffle : List Question → List Question) (sel : String) (n : Int)
    (tm te : Bool) (tl : Nat) (w : World) (qb : QBank)
    (hsel : sel ≠ "") (hn : 0 < n)
    (hfind : (filteredQBanks qbanks history filters).find? (fun b => b.id == sel) = some qb)
    (hover : (qb.questions.length : Int) < n) :
    dashboardHandleStartQuiz qbanks history filters shuffle sel n tm te tl w = (true, w) := by
  simp [dashboardHandleStartQuiz, hfind, hsel, hn, hover]

/-- C6 witness: the over-quota rejection instantiated on a concrete
one-question bank with count 5 and no filters active. -/
theorem dashboardStart_overQuota_rejected_witness :
    ("b6" ≠ "" ∧ (0 : Int) < 5
      ∧ (filteredQBanks [c6Bank] [] noFilter).find? (fun b => b.id == "b6") = some c6Bank
      ∧ (c6Bank.questions.length : Int) < 5)
    ∧ dashboardHandleStartQuiz [c6Bank] [] noFilter id "b6" 5 false false 60 initialWorld
        = (true, initialWorld) := by
  refine ⟨by decide, ?_⟩
  exact dashboardStart_overQuota_rejected [c6Bank] [] noFilter id "b6" 5 false false 60
    initialWorld c6Bank (by decide) (by decide) (by decide) (by decide)

/-- C7 (amended): backward navigation is a no-op at index 0, never changes
the score or the emitted history, rewinds the index by one otherwise (also
when the timer is enabled — the engine does not block it; only the
QuizController component's Previous button is disabled under
`currentQuestionIndex === 0 || timerEnabled`). -/
theorem prevNavigation_spec (w : World) :
    (handleQuizNavigation NavDirection.prev
        { w with state := { w.state with currentQuestionIndex := 0 } }
      = { w with state := { w.state with currentQuestionIndex := 0 } })
    ∧ (handleQuizNavigation NavDirection.prev w).state.score = w.state.score
    ∧ (handleQuizNavigation NavDirection.prev w).emitted = w.emitted
    ∧ (handleQuizNavigation NavDirection.prev w).state.currentQuestionIndex
        = w.state.currentQuestionIndex - 1
    ∧ quizControllerPrevDisabled w.state.currentQuestionIndex w.state.timerEnabled
        = (decide (w.state.currentQuestionIndex = 0) || w.state.timerEnabled) := by
  refine ⟨?_, ?_, ?_, ?_, ?_⟩
  · simp [handleQuizNavigation]
  · by_cases h : 0 < w.state.currentQuestionIndex
    · cases hte : w.state.timerEnabled <;>
        simp [handleQuizNavigation, h, hte, startQuestionTimer]
    · simp [handleQuizNavigation, h]
  · by_cases h : 0 < w.state.currentQuestionIndex
    · cases hte : w.state.timerEnabled <;>
        simp [handleQuizNavigation, h, hte, startQuestionTimer]
    · simp [handleQuizNavigation, h]
  · by_cases h : 0 < w.state.currentQuestionIndex
    · cases hte : w.state.timerEnabled <;>
        simp [handleQuizNavigation, h, hte, startQuestionTimer]
    · have h0 : w.state.currentQuestionIndex = 0 := by omega
      simp [handleQuizNavigation, h, h0]
  · cases h : w.state.currentQuestionIndex <;> simp [quizControllerPrevDisabled]

/-- C8 (amended): the marked metric equals the number of distinct ids of
catalog questions with `isMarked = true` whenever the history is non-empty,
and is 0 when the history is empty. -/
theorem metricsMarked_formula (qbanks : List QBank) (history : List QuizHistory)
    (h : history ≠ []) :
    (metrics qbanks history).marked
      = ((((qbanks.flatMap (fun qb => qb.questions)).filter (fun q => q.isMarked)).map
          (fun q => q.id)).toFinset).card
    ∧ (metrics qbanks []).marked = 0 := by
  constructor
  · simp only [metrics]
    rw [if_pos (List.length_pos.mpr h)]
  · simp [metrics]

/-- C8 witness: the marked formula instantiated on the concrete catalog
with one marked question and a non-empty history. -/
theorem metricsMarked_formula_witness :
    c8History ≠ []
    ∧ (metrics c8Banks c8History).marked
        = ((((c8Banks.flatMap (fun qb => qb.questions)).filter (fun q => q.isMarked)).map
            (fun q => q.id)).toFinset).card
    ∧ (metrics c8Banks []).marked = 0 := by
  refine ⟨by decide, ?_, ?_⟩
  · exact (metricsMarked_formula c8Banks c8History (by decide)).1
  · exact (metricsMarked_formula c8Banks c8History (by decide)).2

/-- C9: `filteredQBanks` is the identity when no filter is active, and
otherwise restricts every bank to the questions retained by the
per-question OR over the active category tests, dropping emptied banks;
with only the `correct` filter active, a question is retained iff at least
one of its attempts across all history has `isCorrect = true`. -/
theorem filteredQBanks_spec (qbanks : List QBank) (history : List QuizHistory)
    (filters : QuestionFilter) :
    (filteredQBanks qbanks history filters
      = if anyFilterActive filters = false then qbanks
        else ((qbanks.map (fun qbank =>
            { qbank with questions := qbank.questions.filter (retainQuestion history filters) })).filter
          (fun qbank => decide (0 < qbank.questions.length))))
    ∧ (∀ q : Question, retainQuestion history onlyCorrectFilter q = true
        ↔ ∃ a ∈ attemptsFor history q.id, a.isCorrect = true) := by
  constructor
  · by_cases h : anyFilterActive filters <;> simp [filteredQBanks, h]
  · intro q
    simp [retainQuestion, onlyCorrectFilter, List.any_eq_true]

/-- C10: continuing (tutor mode) on the last question after a timeout — no
selection recorded — advances with `selectedAnswer || 0`, i.e. option 0:
the emitted record scores the omitted question as correct exactly when the
question's correct answer index is 0. -/
theorem continueAfterTimeout_substitutesZero (w : World)
    (htutor : w.state.tutorMode = true)
    (hanswered : w.state.isAnswered = true)
    (hsel : w.state.selectedAnswer = none)
    (hlast : (w.state.currentQuestionIndex : Int) = (w.state.currentQuestions.length : Int) - 1) :
    (handleContinue w).emitted
      = w.emitted ++ [mkHistory
          (w.state.score +
            (if (0 : Int) = (w.state.currentQuestions.getD w.state.currentQuestionIndex
                defaultQuestion).correctAnswer then 1 else 0))
          w.state.currentQuestions.length
          ((w.state.currentQuestions.getD 0 defaultQuestion).qbankId)] := by
  have hz : jsOrDefault w.state.selectedAnswer 0 = 0 := by rw [hsel]; rfl
  simp [handleContinue, proceedToNextQuestion, hz, hlast]

/-- C10 witness: the substitution theorem instantiated on a timed-out
tutor-mode session whose last question has correct answer 0 — the omitted
question is scored as correct. -/
theorem continueAfterTimeout_substitutesZero_witness :
    (c10World.state.tutorMode = true ∧ c10World.state.isAnswered = true
      ∧ c10World.state.selectedAnswer = none
      ∧ (c10World.state.currentQuestionIndex : Int)
          = (c10World.state.currentQuestions.length : Int) - 1)
    ∧ (handleContinue c10World).emitted = [mkHistory 1 1 "b10"] := by
  refine ⟨by decide, ?_⟩
  have h := continueAfterTimeout_substitutesZero c10World rfl rfl rfl (by decide)
  rw [h]
  decide
